import Mathlib

/-!
# Shallow embedding of the acme-tools DNS-01 challenge core

This file models, in Lean, the parts of the `acme_tools` Python package that
the verified properties talk about:

* `acme_tools/types.py` — the `RecordType`, `Record` and `RecordOptions` value
  types (`DORecord` from the DigitalOcean adapter extends `Record` with a
  `resource_id`).
* `acme_tools/errors.py` — the error taxonomy, embedded as the inductive
  `PyError` (one extra constructor `httpStatusError` stands for the generic
  transport exception raised by `httpx.Response.raise_for_status`, and
  `typeError` stands for Python's built-in `TypeError`).
* `acme_tools/utils.py` — `get_domain`.
* `acme_tools/adapters/providers/digitalocean/provider.py` — `raise_for_status`,
  `_check_record_type`, `_check_record` and `create_record`.  The HTTP zone
  listing that `_get_records` performs is represented by an explicit
  `existing : List DORecord` argument: the list of records the DigitalOcean API
  would return for the queried `(fqdn, record_type)` pair; the POST performed by
  `create_record` is represented by the returned write flag, with the server
  echoing the submitted fields back together with a fresh `resource_id`.
* `acme_tools/challenge.py` — the verification-name derivation of
  `DNS01Challenge.__call__` and the whole record lifecycle of
  `DNS01Challenge.temporary_txt_records` (creation loop, `ExitStack` cleanup
  callbacks, shared 120-second propagation deadline, 2-second sleep between
  resolver polls, and the `finally`-block unwinding semantics of
  `contextlib.ExitStack`).

Python strings are modelled as Lean `String`s; Python string slicing and
splitting are modelled by explicit structural functions over `String.data`
(`pyTake`, `pyDrop`, `splitOnDot`, `beforeFirst`) so that all definitions are
executable and kernel-reducible.  Time is modelled as a natural number of
seconds read through the injectable clock: every operation except
`time.sleep(2)` is instantaneous, and `time.sleep(2)` advances the clock by
exactly 2, which is the deterministic-clock reading of the source's use of
`self.clock()` and `time.sleep`.
-/

namespace AcmeTools

/-- `types.py`: the closed enumeration of DNS record types. -/
inductive RecordType where
  | A
  | CNAME
  | NS
  | TXT
  | SOA
  deriving DecidableEq, Repr

/-- `types.py`: a DNS record as known to a provider.  `ttl` is `int | None` in
the source, hence `Option Int` here. -/
structure Record where
  domain : String
  type : RecordType
  fqdn : String
  name : String
  data : String
  ttl : Option Int
  deriving DecidableEq, Repr

/-- `digitalocean/provider.py`: a `Record` together with the DigitalOcean
resource id captured at creation time. -/
structure DORecord extends Record where
  resource_id : String
  deriving DecidableEq, Repr

/-- `types.py`: the input options of `Provider.create_record`.
`propagation_timeout` and `query_interval` are floats in the source; they are
never read by any code under verification, and are carried as integers. -/
structure RecordOptions where
  fqdn : String
  record_type : RecordType
  record_value : String
  record_ttl : Int
  append : Bool
  propagation_timeout : Int
  query_interval : Int
  deriving DecidableEq, Repr

/-- The exceptions of `errors.py`, plus:

* `httpStatusError code` — the generic `httpx.HTTPStatusError` raised by
  `Response.raise_for_status()` for a non-2xx status not handled earlier;
* `typeError` — Python's built-in `TypeError`;
* `timeoutError` — the built-in `TimeoutError` raised on propagation timeout;
* `acmeError` — any exception raised by the ACME collaborator inside the
  `with temporary_txt_records(...)` body (`answer_challenge` /
  `poll_and_finalize`). -/
inductive PyError where
  | invalidDomainName
  | invalidRecordType
  | resourceNotFound
  | unauthorized
  | rateLimitExceeded
  | serverError (msg : Option String)
  | invalidRequest (msg : Option String)
  | recordAlreadyExists
  | httpStatusError (code : Nat)
  | typeError
  | timeoutError
  | acmeError (msg : String)
  deriving DecidableEq, Repr

/-- The finalized order returned by `poll_and_finalize` (external ACME
collaborator); only its certificate payload matters here. -/
structure OrderResource where
  fullchain_pem : String
  deriving DecidableEq, Repr

instance {ε α : Type _} [DecidableEq ε] [DecidableEq α] : DecidableEq (Except ε α) := by
  intro a b
  cases a <;> cases b
  case error.error e f =>
    exact if h : e = f then .isTrue (by rw [h]) else .isFalse (by simp [h])
  case error.ok e a => exact .isFalse (by simp)
  case ok.error a e => exact .isFalse (by simp)
  case ok.ok a b =>
    exact if h : a = b then .isTrue (by rw [h]) else .isFalse (by simp [h])

/-- Python `s[:n]` on strings. -/
def pyTake (s : String) (n : Nat) : String :=
  ⟨s.data.take n⟩

/-- Python `s[n:]` on strings. -/
def pyDrop (s : String) (n : Nat) : String :=
  ⟨s.data.drop n⟩

/-- Python `s.split(".")` over the character list of `s` (single-character
separator, as used by `get_domain`).  `splitOnDot [] = [[]]`, matching
`"".split(".") == [""]`. -/
def splitOnDot : List Char → List (List Char)
  | [] => [[]]
  | c :: rest =>
    if c = '.' then [] :: splitOnDot rest
    else
      match splitOnDot rest with
      | [] => [[c]]
      | h :: t => (c :: h) :: t

/-- Python `".".join(parts)` over character lists. -/
def joinDots : List (List Char) → List Char
  | [] => []
  | [l] => l
  | l :: rest => l ++ '.' :: joinDots rest

/-- Python `s.split(sep)[0]` for a non-empty separator: the part of `s` before
the first occurrence of `sep` (the whole of `s` when `sep` does not occur).
Used for the record-name derivation `options.fqdn.split(f".{domain}")[0]`. -/
def beforeFirst (sep : List Char) : List Char → List Char
  | [] => []
  | c :: rest =>
    if sep.isPrefixOf (c :: rest) then []
    else c :: beforeFirst sep rest

/-- `utils.py`, `get_domain`: root domain out of a FQDN.  Raises
`InvalidDomainName` on an empty name or a name without a dot; otherwise joins
the last two dot-separated labels (`".".join(fqdn.split(".")[-2:])`). -/
def get_domain (fqdn : String) : Except PyError String :=
  if fqdn = "" then .error .invalidDomainName
  else if fqdn.data.contains '.' = false then .error .invalidDomainName
  else
    let parts := splitOnDot fqdn.data
    .ok ⟨joinDots (parts.drop (parts.length - 2))⟩

/-- The fields of an `httpx.Response` that `raise_for_status` reads:
the status code, the `ratelimit-reset` header (headers are strings, so
`headers.get` yields `str | None`), and the `message` field of the JSON body. -/
structure HttpResponse where
  status_code : Nat
  ratelimit_reset : Option String
  message : Option String
  deriving DecidableEq, Repr

/-- `digitalocean/provider.py`, `raise_for_status`: maps an HTTP response to
the error taxonomy.  403 and 400 are NOT handled by any branch and fall
through to `response.raise_for_status()`, which raises the generic
`httpx.HTTPStatusError` for every non-2xx status.  In the 429 branch the
source computes `reset_time - time.time()` where
`reset_time = response.headers.get("ratelimit-reset")` is `str | None`;
subtracting a float from a string (or from `None`) raises `TypeError` before
`RateLimitExceededError` is ever constructed, so the branch is modelled as
raising `typeError`. -/
def raise_for_status (response : HttpResponse) : Except PyError Unit :=
  if response.status_code = 404 then .error .resourceNotFound
  else if response.status_code = 401 then .error .unauthorized
  else if response.status_code = 429 then .error .typeError
  else if response.status_code = 500 then .error (.serverError response.message)
  else if response.status_code = 422 then .error (.invalidRequest response.message)
  else if 200 ≤ response.status_code ∧ response.status_code ≤ 299 then .ok ()
  else .error (.httpStatusError response.status_code)

/-- `challenge.py`: the `_acme-challenge` label constant. -/
def DNS_LABEL : String := "_acme-challenge"

/-- `challenge.py`, `DNS01Challenge.__call__` lines 74-80: the verification DNS
name for one domain.  A wildcard domain (`domain[:2] == "*."`) is stripped of
its leading `*.` before the `_acme-challenge` label is prefixed. -/
def verification_dns_name (domain : String) : String :=
  let stripped := if pyTake domain 2 = "*." then pyDrop domain 2 else domain
  DNS_LABEL ++ "." ++ stripped

/-- `challenge.py`: the DNS names paired with challenge tokens, in domain
enumeration order (`verification_tokens` in `__call__`). -/
def verification_names (domains : List String) : List String :=
  domains.map verification_dns_name

namespace DO

/-- `DigitalOceanProvider._check_record_type`: `RecordType(record_type)` is the
identity on enum members; SOA records cannot be managed through the API. -/
def _check_record_type (record_type : RecordType) : Except PyError RecordType :=
  if record_type = RecordType.SOA then .error .invalidRecordType
  else .ok record_type

/-- `DigitalOceanProvider._check_record` (provider.py lines 108-135), with the
zone listing that `_get_records` would return for the queried
`(fqdn, record_type)` pair passed in as `existing`.  The source's
`for existing_record in existing_records:` loop returns `existing_records[0]`
when the first record matches `(value, ttl)` and raises
`RecordAlreadyExistsError` otherwise — the `raise` sits in the loop body, so
only the first element is ever examined. -/
def _check_record (existing : List DORecord) (record_type : RecordType)
    (value : String) (ttl : Int) : Except PyError (Option DORecord) :=
  match _check_record_type record_type with
  | .error e => .error e
  | .ok _ =>
    match existing with
    | [] => .ok none
    | r :: _ =>
      if r.data = value ∧ r.ttl = some ttl then .ok (some r)
      else .error .recordAlreadyExists

/-- The record the POST branch of `create_record` returns: the DigitalOcean
API echoes the submitted `type`, `name`, `data` and `ttl` back together with a
fresh resource id, and the `create_record` module-level helper rebuilds a
`DORecord` from that JSON with `domain = get_domain(fqdn)` and `fqdn` as
submitted. -/
def postedRecord (options : RecordOptions) (rt : RecordType) (domain name : String)
    (newId : String) : DORecord :=
  { type := rt
    domain := domain
    fqdn := options.fqdn
    name := name
    data := options.record_value
    ttl := some options.record_ttl
    resource_id := newId }

/-- `DigitalOceanProvider.create_record` (provider.py lines 137-188).
`existing` is the zone listing for `(options.fqdn, options.record_type)`;
`newId` is the resource id the server would assign to a newly created record.
The second component of the result is `true` exactly when the POST request is
issued.  The structure mirrors the source: `RecordAlreadyExistsError` from
`_check_record` is re-raised unless `options.append`, in which case control
falls through to the write; an exact first-record match returns the existing
record with no write; otherwise `get_domain` picks the zone, the record name
is `"@"` for an apex FQDN and `options.fqdn.split(f".{domain}")[0]` otherwise,
and the POST is issued. -/
def create_record (existing : List DORecord) (options : RecordOptions)
    (newId : String) : Except PyError DORecord × Bool :=
  match _check_record_type options.record_type with
  | .error e => (.error e, false)
  | .ok rt =>
    let write : Except PyError DORecord × Bool :=
      match get_domain options.fqdn with
      | .error e => (.error e, false)
      | .ok domain =>
        let name :=
          if domain = options.fqdn then "@"
          else (⟨beforeFirst ("." ++ domain).data options.fqdn.data⟩ : String)
        (.ok (postedRecord options rt domain name newId), true)
    match _check_record existing options.record_type options.record_value
        options.record_ttl with
    | .error .recordAlreadyExists =>
      if options.append then write else (.error .recordAlreadyExists, false)
    | .error e => (.error e, false)
    | .ok (some existing_record) => (.ok existing_record, false)
    | .ok none => write

/-- `DigitalOceanProvider.delete_record` (provider.py lines 190-203): a
type-check on the argument, then a DELETE request whose response goes through
`raise_for_status`.  `deleteResponse` is the HTTP response the API returns for
this record's DELETE request. -/
def delete_record (record : DORecord) (deleteResponse : HttpResponse) :
    Except PyError Unit :=
  raise_for_status deleteResponse

end DO

namespace DNS01

/-- The collaborators a `DNS01Challenge` run interacts with, as deterministic
oracles:

* `create fqdn value` — the outcome of `provider.create_record` for the
  `RecordOptions(fqdn=fqdn, record_type=TXT, record_value=value, ttl=30,
  append=True, ...)` call made by `temporary_txt_records`;
* `delete r` — the outcome of `provider.delete_record(r)`;
* `resolve t fqdn ty` — the value list `resolver.resolve(fqdn, record_type=ty)`
  returns when the injected clock reads `t`;
* `body d` — the outcome of the `with temporary_txt_records(...)` body in
  `DNS01Challenge.__call__`: the `answer_challenge` calls followed by
  `poll_and_finalize(order, deadline=d)`, where `d` is the caller-supplied
  deadline (`datetime | None`, modelled as `Option Nat`). -/
structure Env where
  create : String → String → Except PyError Record
  delete : Record → Except PyError Unit
  resolve : Nat → String → RecordType → List String
  body : Option Nat → Except PyError OrderResource

/-- The creation loop of `temporary_txt_records` (challenge.py lines 110-127):
records are created one by one; each success pushes a deletion callback and is
appended to `dns_records`; the first failure aborts the loop with that error.
Returns the error (if any) and the records created so far in creation order
(`acc` starts empty). -/
def createAll (create : String → String → Except PyError Record) :
    List (String × String) → List Record → Option PyError × List Record
  | [], acc => (none, acc)
  | (fqdn, value) :: rest, acc =>
    match create fqdn value with
    | .error e => (some e, acc)
    | .ok r => createAll create rest (acc ++ [r])

/-- The body of the per-record `while self.clock() < deadline:` polling loop
(challenge.py lines 132-145), written with an explicit iteration budget so the
recursion is structural.  Each iteration resolves
`resolver.resolve(record.fqdn, record_type=record.type)` at the current clock
reading, exits with the current time on an exact membership hit
(`record.data in values`), and otherwise sleeps 2 seconds.  The budget is
spent one unit per iteration while the clock gains 2 per iteration, so a
budget of `deadline - now` can never run out before the clock reaches the
deadline; the `0` case therefore coincides with the loop's exit condition
`¬ (now < deadline)` and returns `(false, now)` like the loop exit does. -/
def waitRecordAux (resolve : Nat → String → RecordType → List String)
    (record : Record) (deadline : Nat) : Nat → Nat → Bool × Nat
  | 0, now => (false, now)
  | fuel + 1, now =>
    if now < deadline then
      if (resolve now record.fqdn record.type).contains record.data then (true, now)
      else waitRecordAux resolve record deadline fuel (now + 2)
    else (false, now)

/-- The per-record propagation wait: the `while self.clock() < deadline:` loop
entered with the clock at `now`.  Returns whether the record was observed
propagated and the clock reading when the loop ended. -/
def waitRecord (resolve : Nat → String → RecordType → List String)
    (record : Record) (deadline now : Nat) : Bool × Nat :=
  waitRecordAux resolve record deadline (deadline - now) now

/-- The `for record in dns_records:` wait (challenge.py lines 130-150): records
wait sequentially against the single shared `deadline`; the first record whose
wait ends unpropagated aborts with `TimeoutError`.  Returns whether all records
propagated and the clock reading when the phase ended. -/
def waitAll (resolve : Nat → String → RecordType → List String) :
    List Record → Nat → Nat → Bool × Nat
  | [], _, now => (true, now)
  | r :: rest, deadline, now =>
    match waitRecord resolve r deadline now with
    | (true, now2) => waitAll resolve rest deadline now2
    | (false, now2) => (false, now2)

/-- `contextlib.ExitStack.__exit__` over the `delete_record` callbacks pushed
by the creation loop, applied to `records` in unwind order (reverse creation
order).  Every callback is invoked exactly once even when callbacks raise; a
raising callback's exception becomes the new pending exception and unwinding
continues, so the pending exception at the end is the one raised by the last
raising callback in unwind order.  Returns that pending exception (if any)
and the list of records on which deletion was attempted, in unwind order. -/
def unwind (delete : Record → Except PyError Unit) :
    List Record → Option PyError × List Record
  | [] => (none, [])
  | r :: rest =>
    let res := delete r
    let (laterErr, attempted) := unwind delete rest
    match laterErr with
    | some e => (some e, r :: attempted)
    | none =>
      match res with
      | .error e => (some e, r :: attempted)
      | .ok _ => (none, r :: attempted)

/-- Everything observable about one orchestration run:

* `outcome` — what `DNS01Challenge.__call__` returns or raises;
* `created` — the records successfully created, in creation order;
* `deleteAttempts` — the records `delete_record` was attempted on during
  cleanup, in attempt order;
* `waitEnd` — the clock reading when the propagation-wait phase ended (equal
  to the start time when the wait never ran because creation failed). -/
structure RunTrace where
  outcome : Except PyError OrderResource
  created : List Record
  deleteAttempts : List Record
  waitEnd : Nat
  deriving Repr

/-- One full `DNS01Challenge` run over `temporary_txt_records`
(challenge.py lines 88-97 and 99-156): create all records (registering a
deletion callback per success), wait for propagation against the shared
`deadline = clock() + 120`, run the `with`-body (which receives the
caller-supplied deadline `callerDeadline` for `poll_and_finalize`), and
unconditionally unwind the `ExitStack` in the `finally` block.  A pending
exception raised by a deletion callback during unwinding propagates out of
`__exit__` and replaces the in-flight outcome, exactly as
`contextlib.ExitStack` does. -/
def run (env : Env) (pairs : List (String × String)) (t0 : Nat)
    (callerDeadline : Option Nat) : RunTrace :=
  let cr := createAll env.create pairs []
  let created := cr.2
  -- the cleanup performed by the finally block; all collaborators are pure
  -- oracles, so the unwinding result can be named up front
  let cleanup := unwind env.delete created.reverse
  match cr.1 with
  | some e =>
    -- a provider error partway through creation: skip the wait and the body,
    -- unwind the callbacks registered so far
    { outcome := .error (cleanup.1.getD e)
      created := created
      deleteAttempts := cleanup.2
      waitEnd := t0 }
  | none =>
    let w := waitAll env.resolve created (t0 + 120) t0
    if w.1 then
      -- all records propagated: run the body, then the finally block
      { outcome :=
          match cleanup.1 with
          | some e => .error e
          | none => env.body callerDeadline
        created := created
        deleteAttempts := cleanup.2
        waitEnd := w.2 }
    else
      -- propagation timeout: `raise TimeoutError(...)`, then the finally block
      { outcome := .error (cleanup.1.getD .timeoutError)
        created := created
        deleteAttempts := cleanup.2
        waitEnd := w.2 }

end DNS01

/-! ## Concrete fixtures used by counterexamples and witnesses -/

/-- A zone record for `_acme-challenge.example.com` holding `"other-token"`. -/
def c3recOther : DORecord :=
  { domain := "example.com", type := .TXT, fqdn := "_acme-challenge.example.com",
    name := "_acme-challenge", data := "other-token", ttl := some 30,
    resource_id := "1001" }

/-- A zone record for `_acme-challenge.example.com` holding `"match-token"`. -/
def c3recMatch : DORecord :=
  { domain := "example.com", type := .TXT, fqdn := "_acme-challenge.example.com",
    name := "_acme-challenge", data := "match-token", ttl := some 30,
    resource_id := "1002" }

/-- Options that exactly match `c3recMatch` on `(fqdn, type, value, ttl)`. -/
def c3opts : RecordOptions :=
  { fqdn := "_acme-challenge.example.com", record_type := .TXT,
    record_value := "match-token", record_ttl := 30, append := false,
    propagation_timeout := 120, query_interval := 2 }

/-- A zone record matching `c7opts` exactly. -/
def c7recMatch : DORecord :=
  { domain := "example.com", type := .TXT, fqdn := "_acme-challenge.example.com",
    name := "_acme-challenge", data := "tok-a", ttl := some 30,
    resource_id := "2001" }

/-- A zone record with the same `(fqdn, type)` as `c7opts` but another value. -/
def c7recDiff : DORecord :=
  { domain := "example.com", type := .TXT, fqdn := "_acme-challenge.example.com",
    name := "_acme-challenge", data := "tok-b", ttl := some 30,
    resource_id := "2002" }

/-- Options (with `append = false`) matching `c7recMatch` exactly while
`c7recDiff` holds a different value for the same `(fqdn, type)`. -/
def c7opts : RecordOptions :=
  { fqdn := "_acme-challenge.example.com", record_type := .TXT,
    record_value := "tok-a", record_ttl := 30, append := false,
    propagation_timeout := 120, query_interval := 2 }

/-- An environment whose provider creates records successfully, whose resolver
sees the published token immediately, whose body (ACME validation and
finalization) succeeds — and whose `delete_record` raises
`ResourceNotFoundError`, as the DigitalOcean adapter does when the record was
already deleted (DELETE answered with 404). -/
def cEnvDeleteFails : DNS01.Env :=
  { create := fun f v =>
      .ok { domain := "example.com", type := .TXT, fqdn := f,
            name := "_acme-challenge", data := v, ttl := some 30 }
    delete := fun _ => .error .resourceNotFound
    resolve := fun _ _ _ => ["tok"]
    body := fun _ => .ok { fullchain_pem := "CERT" } }

/-- An environment whose provider and body behave, but whose resolver never
returns any value: propagation is never observed. -/
def cEnvNeverResolves : DNS01.Env :=
  { create := fun f v =>
      .ok { domain := "example.com", type := .TXT, fqdn := f,
            name := "_acme-challenge", data := v, ttl := some 30 }
    delete := fun _ => .ok ()
    resolve := fun _ _ _ => []
    body := fun _ => .ok { fullchain_pem := "CERT" } }

/-- A fully well-behaved environment: creation succeeds, the token is resolved
on the first poll, deletion succeeds, the body succeeds. -/
def cEnvHappy : DNS01.Env :=
  { create := fun f v =>
      .ok { domain := "example.com", type := .TXT, fqdn := f,
            name := "_acme-challenge", data := v, ttl := some 30 }
    delete := fun _ => .ok ()
    resolve := fun _ _ _ => ["tok"]
    body := fun _ => .ok { fullchain_pem := "CERT" } }

/-- Like `cEnvHappy`, but the resolver never answers; used to witness the
propagation-timeout bound. -/
def cEnvTimesOut : DNS01.Env :=
  { create := fun f v =>
      .ok { domain := "example.com", type := .TXT, fqdn := f,
            name := "_acme-challenge", data := v, ttl := some 30 }
    delete := fun _ => .ok ()
    resolve := fun _ _ _ => []
    body := fun _ => .ok { fullchain_pem := "CERT" } }

/-- The record whose propagation the C9 witness polls for. -/
def recTok : Record :=
  { domain := "example.com", type := .TXT, fqdn := "_acme-challenge.example.com",
    name := "_acme-challenge", data := "tok", ttl := some 30 }

/-! ## Helper lemmas -/

/-- Appending a string to a string literal acts on the character data. -/
lemma string_append_data (a b : String) : (a ++ b).data = a.data ++ b.data := by
  cases a
  cases b
  rfl

/-- `get_domain` on a name without a dot is `InvalidDomainName`, empty or not. -/
lemma get_domain_no_dot (fqdn : String) (h : fqdn.data.contains '.' = false) :
    get_domain fqdn = .error .invalidDomainName := by
  unfold get_domain
  by_cases he : fqdn = ""
  · simp [he]
  · rw [if_neg he, if_pos h]

namespace DNS01

/-- `ExitStack` unwinding attempts every registered callback: the attempted
list is the whole input list, whatever the callbacks return. -/
lemma unwind_attempts (delete : Record → Except PyError Unit) :
    ∀ l : List Record, (unwind delete l).2 = l := by
  intro l
  induction l with
  | nil => rfl
  | cons r rest ih =>
    unfold unwind
    rcases h : unwind delete rest with ⟨laterErr, attempted⟩
    rcases laterErr with _ | e
    · rcases hr : delete r with e | u <;> simp_all
    · simp_all

/-- When every deletion succeeds, unwinding leaves no pending exception. -/
lemma unwind_none_of_ok (delete : Record → Except PyError Unit)
    (h : ∀ r, delete r = .ok ()) :
    ∀ l : List Record, (unwind delete l).1 = none := by
  intro l
  induction l with
  | nil => rfl
  | cons r rest ih =>
    unfold unwind
    rcases hrec : unwind delete rest with ⟨laterErr, attempted⟩
    rw [hrec] at ih
    rcases laterErr with _ | e
    · simp [h r]
    · simp_all

/-- A creation loop that runs to completion creates one record per pair. -/
lemma createAll_none_length (create : String → String → Except PyError Record) :
    ∀ (pairs : List (String × String)) (acc : List Record),
      (createAll create pairs acc).1 = none →
      ((createAll create pairs acc).2).length = acc.length + pairs.length := by
  intro pairs
  induction pairs with
  | nil => intro acc _; simp [createAll]
  | cons p rest ih =>
    intro acc h
    rcases p with ⟨f, v⟩
    rcases hc : create f v with e | r
    · rw [createAll, hc] at h
      exact absurd h (by simp)
    · rw [createAll, hc] at h ⊢
      rw [ih (acc ++ [r]) h]
      simp
      omega

/-- The polling loop is insensitive to the exact iteration budget as long as
the budget covers `deadline - now`. -/
lemma waitRecordAux_congr (resolve : Nat → String → RecordType → List String)
    (record : Record) (deadline : Nat) :
    ∀ fuel₁ fuel₂ now, deadline - now ≤ fuel₁ → deadline - now ≤ fuel₂ →
      waitRecordAux resolve record deadline fuel₁ now =
        waitRecordAux resolve record deadline fuel₂ now := by
  intro fuel₁
  induction fuel₁ with
  | zero =>
    intro fuel₂ now h1 h2
    have hnd : ¬ now < deadline := by omega
    cases fuel₂ with
    | zero => rfl
    | succ k => simp [waitRecordAux, hnd]
  | succ k ih =>
    intro fuel₂ now h1 h2
    cases fuel₂ with
    | zero =>
      have hnd : ¬ now < deadline := by omega
      simp [waitRecordAux, hnd]
    | succ m =>
      by_cases hlt : now < deadline
      · by_cases hmem : record.data ∈ resolve now record.fqdn record.type
        · simp [waitRecordAux, hlt, hmem]
        · simp only [waitRecordAux, if_pos hlt]
          rw [if_neg (by simpa using hmem), if_neg (by simpa using hmem)]
          exact ih m (now + 2) (by omega) (by omega)
      · simp [waitRecordAux, hlt]

/-- The defining unfolding of the `while self.clock() < deadline:` loop. -/
lemma waitRecord_unfold (resolve : Nat → String → RecordType → List String)
    (record : Record) (deadline now : Nat) :
    waitRecord resolve record deadline now =
      if now < deadline then
        if (resolve now record.fqdn record.type).contains record.data then (true, now)
        else waitRecord resolve record deadline (now + 2)
      else (false, now) := by
  unfold waitRecord
  by_cases hlt : now < deadline
  · have hsplit : deadline - now = (deadline - now - 1) + 1 := by omega
    rw [hsplit]
    by_cases hmem : record.data ∈ resolve now record.fqdn record.type
    · simp [waitRecordAux, hlt, hmem]
    · simp only [waitRecordAux, if_pos hlt]
      rw [if_neg (by simpa using hmem), if_neg (by simpa using hmem)]
      exact waitRecordAux_congr resolve record deadline (deadline - now - 1)
        (deadline - (now + 2)) (now + 2) (by omega) (by omega)
  · have h0 : deadline - now = 0 := by omega
    rw [h0]
    simp [waitRecordAux, hlt]

/-- When the resolver answers nothing at any instant of the wait window and
the clock enters the loop an even number of seconds before the deadline, the
loop exits unpropagated exactly at the deadline. -/
lemma waitRecord_window_empty (resolve : Nat → String → RecordType → List String)
    (record : Record) :
    ∀ n deadline now,
      (∀ t, t < deadline → resolve t record.fqdn record.type = []) →
      deadline - now = n → now ≤ deadline → 2 ∣ n →
      waitRecord resolve record deadline now = (false, deadline) := by
  intro n
  induction n using Nat.strong_induction_on with
  | _ n ih =>
    intro deadline now hres hn hle hdvd
    rw [waitRecord_unfold]
    by_cases hlt : now < deadline
    · rw [if_pos hlt, hres now hlt]
      rw [if_neg (by simp)]
      exact ih (n - 2) (by omega) deadline (now + 2) hres (by omega) (by omega)
        (by omega)
    · have : now = deadline := by omega
      rw [if_neg hlt, this]

/-- If the current poll already contains the record's exact value and the
deadline has not passed, the loop exits at once without sleeping. -/
lemma waitRecord_hit_now (resolve : Nat → String → RecordType → List String)
    (record : Record) (deadline now : Nat) (hlt : now < deadline)
    (hmem : (resolve now record.fqdn record.type).contains record.data = true) :
    waitRecord resolve record deadline now = (true, now) := by
  rw [waitRecord_unfold, if_pos hlt, hmem]
  simp

/-- If the loop reports propagation, the resolver's answer at the reported
instant contained the record's exact value as a whole-string member. -/
lemma waitRecord_mem_of_true (resolve : Nat → String → RecordType → List String)
    (record : Record) :
    ∀ n deadline now, deadline - now = n →
      (waitRecord resolve record deadline now).1 = true →
      (resolve (waitRecord resolve record deadline now).2 record.fqdn
          record.type).contains record.data = true := by
  intro n
  induction n using Nat.strong_induction_on with
  | _ n ih =>
    intro deadline now hn htrue
    rw [waitRecord_unfold] at htrue ⊢
    by_cases hlt : now < deadline
    · rw [if_pos hlt] at htrue ⊢
      by_cases hmem : record.data ∈ resolve now record.fqdn record.type
      · rw [if_pos (by simpa using hmem)]
        simpa using hmem
      · rw [if_neg (by simpa using hmem)] at htrue ⊢
        exact ih (n - 2) (by omega) deadline (now + 2) (by omega) htrue
    · rw [if_neg hlt] at htrue
      exact absurd htrue (by simp)

/-- A value of which the expected token is merely a prefix or substring never
counts: if no poll ever contains the exact value, the loop never reports
propagation. -/
lemma waitRecord_false_of_never (resolve : Nat → String → RecordType → List String)
    (record : Record)
    (hnever : ∀ t, (resolve t record.fqdn record.type).contains record.data = false) :
    ∀ n deadline now, deadline - now = n →
      (waitRecord resolve record deadline now).1 = false := by
  intro n
  induction n using Nat.strong_induction_on with
  | _ n ih =>
    intro deadline now hn
    rw [waitRecord_unfold]
    by_cases hlt : now < deadline
    · rw [if_pos hlt, if_neg (by simpa using hnever now)]
      exact ih (n - 2) (by omega) deadline (now + 2) (by omega)
    · simp [hlt]

/-- The records a run creates are those of the creation loop. -/
lemma run_created (env : Env) (pairs : List (String × String)) (t0 : Nat)
    (cd : Option Nat) :
    (run env pairs t0 cd).created = (createAll env.create pairs []).2 := by
  unfold run
  rcases h : (createAll env.create pairs []).1 with _ | e
  · by_cases hw : (waitAll env.resolve ((createAll env.create pairs []).2)
        (t0 + 120) t0).1 <;> simp [h, hw]
  · simp [h]

/-- The records a run attempts to delete are those the `ExitStack` unwinds. -/
lemma run_deleteAttempts (env : Env) (pairs : List (String × String)) (t0 : Nat)
    (cd : Option Nat) :
    (run env pairs t0 cd).deleteAttempts =
      (unwind env.delete (((createAll env.create pairs []).2).reverse)).2 := by
  unfold run
  rcases h : (createAll env.create pairs []).1 with _ | e
  · by_cases hw : (waitAll env.resolve ((createAll env.create pairs []).2)
        (t0 + 120) t0).1 <;> simp [h, hw]
  · simp [h]

/-- The clock reading at the end of a run's wait phase. -/
lemma run_waitEnd (env : Env) (pairs : List (String × String)) (t0 : Nat)
    (cd : Option Nat) :
    (run env pairs t0 cd).waitEnd =
      match (createAll env.create pairs []).1 with
      | some _ => t0
      | none => (waitAll env.resolve ((createAll env.create pairs []).2)
          (t0 + 120) t0).2 := by
  unfold run
  rcases h : (createAll env.create pairs []).1 with _ | e
  · by_cases hw : (waitAll env.resolve ((createAll env.create pairs []).2)
        (t0 + 120) t0).1 <;> simp [h, hw]
  · simp [h]

/-- A run's outcome: a pending cleanup exception wins; otherwise the first
fatal error of the creation, wait or validation phase; otherwise the body's
result. -/
lemma run_outcome (env : Env) (pairs : List (String × String)) (t0 : Nat)
    (cd : Option Nat) :
    (run env pairs t0 cd).outcome =
      match (unwind env.delete (((createAll env.create pairs []).2).reverse)).1 with
      | some e => .error e
      | none =>
        match (createAll env.create pairs []).1 with
        | some e => .error e
        | none =>
          if (waitAll env.resolve ((createAll env.create pairs []).2)
              (t0 + 120) t0).1 then env.body cd
          else .error .timeoutError := by
  unfold run
  rcases h : (createAll env.create pairs []).1 with _ | e
  · by_cases hw : (waitAll env.resolve ((createAll env.create pairs []).2)
        (t0 + 120) t0).1
    · rcases hu : (unwind env.delete (((createAll env.create pairs []).2).reverse)).1
          with _ | e <;> simp [h, hw, hu]
    · rcases hu : (unwind env.delete (((createAll env.create pairs []).2).reverse)).1
          with _ | e <;> simp [h, hw, hu]
  · rcases hu : (unwind env.delete (((createAll env.create pairs []).2).reverse)).1
        with _ | e' <;> simp [h, hu]

end DNS01

/-! ## Claim theorems -/

/-- **C8.** For every domain list containing a wildcard entry `*.<base>`, the
verification DNS name derived for that entry is exactly
`_acme-challenge.<base>` — the leading `*.` is stripped before the
`_acme-challenge` label is prefixed — while a non-wildcard domain `<d>`
(one whose first two characters are not `*.`) yields `_acme-challenge.<d>`
unchanged. -/
theorem wildcard_strip_verification_dns_name :
    (∀ base : String, verification_dns_name ("*." ++ base) = "_acme-challenge." ++ base) ∧
    (∀ d : String, pyTake d 2 ≠ "*." →
      verification_dns_name d = "_acme-challenge." ++ d) ∧
    (∀ (doms : List String) (base : String), ("*." ++ base) ∈ doms →
      ("_acme-challenge." ++ base) ∈ verification_names doms) := by
  have h1 : ∀ base : String,
      verification_dns_name ("*." ++ base) = "_acme-challenge." ++ base := by
    intro base
    cases base
    rfl
  refine ⟨h1, ?_, ?_⟩
  · intro d h
    unfold verification_dns_name
    rw [if_neg h]
    rfl
  · intro doms base h
    exact List.mem_map.2 ⟨"*." ++ base, h, h1 base⟩


/-- **C8 witness.** Concrete instances: the wildcard domain `*.example.com`
maps to `_acme-challenge.example.com`, and the non-wildcard `a.example.com`
maps to `_acme-challenge.a.example.com`. -/
theorem wildcard_strip_verification_dns_name_witness :
    verification_dns_name ("*." ++ "example.com") = "_acme-challenge." ++ "example.com" ∧
    verification_dns_name "a.example.com" = "_acme-challenge." ++ "a.example.com" :=
  ⟨wildcard_strip_verification_dns_name.1 "example.com",
   wildcard_strip_verification_dns_name.2.1 "a.example.com" (by decide)⟩

/-- **C10.** `get_domain(fqdn)`, used by the provider adapter to choose the
DNS zone, raises `InvalidDomainName` when `fqdn` is empty or contains no dot,
and otherwise returns exactly the last two dot-separated labels of `fqdn`; in
particular for a name under a multi-label public suffix such as
`example.co.uk` the computed root domain is `co.uk`, not `example.co.uk`. -/
theorem get_domain_is_last_two_labels :
    get_domain "" = .error .invalidDomainName ∧
    (∀ fqdn : String, fqdn.data.contains '.' = false →
      get_domain fqdn = .error .invalidDomainName) ∧
    (∀ fqdn : String, fqdn ≠ "" → fqdn.data.contains '.' = true →
      get_domain fqdn =
        .ok ⟨joinDots ((splitOnDot fqdn.data).drop ((splitOnDot fqdn.data).length - 2))⟩) ∧
    get_domain "example.co.uk" = .ok "co.uk" ∧
    get_domain "www.example.co.uk" = .ok "co.uk" ∧
    get_domain "_acme-challenge.example.co.uk" = .ok "co.uk" := by
  refine ⟨by decide, ?_, ?_, by decide, by decide, by decide⟩
  · intro fqdn h
    exact get_domain_no_dot fqdn h
  · intro fqdn he hdot
    unfold get_domain
    rw [if_neg he, if_neg (by rw [hdot]; decide)]

/-- **C10 witness.** `get_domain` rejects the dotless name `localhost` and the
empty name, and keeps only the last two labels of `www.example.co.uk`. -/
theorem get_domain_is_last_two_labels_witness :
    get_domain "localhost" = .error .invalidDomainName ∧
    get_domain "www.example.co.uk" =
      .ok ⟨joinDots ((splitOnDot "www.example.co.uk".data).drop
        ((splitOnDot "www.example.co.uk".data).length - 2))⟩ :=
  ⟨get_domain_is_last_two_labels.2.1 "localhost" (by decide),
   get_domain_is_last_two_labels.2.2.1 "www.example.co.uk" (by decide) (by decide)⟩

/-- **C4.** Evaluation of the adapter's error mapping at the claim's status
codes: 404, 401, 500 and 422 map to the documented taxonomy errors, but 403
and 400 are not handled by any branch and fall through to the generic
transport error (`httpx.Response.raise_for_status`), contradicting both the
claim and the docstrings of `UnauthorizedError` ("401 or 403") and
`InvalidRequestError` ("400, 422 or 428") in `errors.py`; and the 429 branch
raises `TypeError` (the `ratelimit-reset` header string is subtracted from
without an `int(...)` conversion) instead of `RateLimitExceededError`. -/
theorem raise_for_status_divergences :
    raise_for_status ⟨404, none, none⟩ = .error .resourceNotFound ∧
    raise_for_status ⟨401, none, none⟩ = .error .unauthorized ∧
    raise_for_status ⟨403, none, none⟩ = .error (.httpStatusError 403) ∧
    raise_for_status ⟨403, none, none⟩ ≠ .error .unauthorized ∧
    raise_for_status ⟨429, some "1760000000", none⟩ = .error .typeError ∧
    raise_for_status ⟨429, some "1760000000", none⟩ ≠ .error .rateLimitExceeded ∧
    raise_for_status ⟨500, none, some "boom"⟩ = .error (.serverError (some "boom")) ∧
    raise_for_status ⟨422, none, some "bad"⟩ = .error (.invalidRequest (some "bad")) ∧
    raise_for_status ⟨400, none, some "bad"⟩ = .error (.httpStatusError 400) ∧
    raise_for_status ⟨400, none, some "bad"⟩ ≠ .error (.invalidRequest (some "bad")) ∧
    raise_for_status ⟨418, none, none⟩ = .error (.httpStatusError 418) ∧
    raise_for_status ⟨302, none, none⟩ = .error (.httpStatusError 302) ∧
    raise_for_status ⟨200, none, none⟩ = .ok () ∧
    raise_for_status ⟨204, none, none⟩ = .ok () := by
  decide

/-- **C1.** For every orchestration run and every run outcome — success, a
propagation timeout, an ACME rejection raised by the body, or a provider
error partway through record creation — every record successfully created via
`Provider.create_record` during the run has `Provider.delete_record`
attempted on it exactly once by the end of the run (the attempts are exactly
the created records, unwound in reverse creation order). -/
theorem every_created_record_deleted_exactly_once :
    ∀ (env : DNS01.Env) (pairs : List (String × String)) (t0 : Nat)
      (cd : Option Nat),
    (DNS01.run env pairs t0 cd).deleteAttempts =
      ((DNS01.run env pairs t0 cd).created).reverse ∧
    ∀ r : Record,
      ((DNS01.run env pairs t0 cd).deleteAttempts).count r =
        ((DNS01.run env pairs t0 cd).created).count r := by
  intro env pairs t0 cd
  have h : (DNS01.run env pairs t0 cd).deleteAttempts =
      ((DNS01.run env pairs t0 cd).created).reverse := by
    rw [DNS01.run_deleteAttempts, DNS01.run_created, DNS01.unwind_attempts]
  refine ⟨h, fun r => ?_⟩
  rw [h]
  exact (List.reverse_perm _).count_eq r

/-- **C2 counterexample.** A run in which creation, propagation and the ACME
body all succeed (the body yields the finalized order `CERT`), but cleanup's
`delete_record` raises `ResourceNotFoundError`: the run reports the cleanup
error, not the successful primary outcome, refuting the claim that a cleanup
failure is never the error reported by the run. -/
theorem cleanup_error_reported_counterexample :
    cEnvDeleteFails.body (some 2000) = .ok { fullchain_pem := "CERT" } ∧
    (DNS01.run cEnvDeleteFails [("_acme-challenge.example.com", "tok")] 0
        (some 2000)).outcome = .error .resourceNotFound := by
  decide

/-- **C2 (amended).** Cleanup deletion failures are not swallowed: the source
calls `stack.__exit__` with no exception handling, and `contextlib.ExitStack`
re-raises the pending exception left by the last failing callback, so that
exception replaces the run's primary outcome.  When no deletion fails during
unwinding, the outcome is the primary one (the run behaves as if deletions
always succeeded); when the unwinding leaves a pending deletion error, that
error is what the run reports. -/
theorem cleanup_failure_replaces_primary_outcome :
    ∀ (env : DNS01.Env) (pairs : List (String × String)) (t0 : Nat)
      (cd : Option Nat),
    ((DNS01.unwind env.delete
        (((DNS01.run env pairs t0 cd).created).reverse)).1 = none →
      (DNS01.run env pairs t0 cd).outcome =
        (DNS01.run { env with delete := fun _ => .ok () } pairs t0 cd).outcome) ∧
    (∀ e, (DNS01.unwind env.delete
        (((DNS01.run env pairs t0 cd).created).reverse)).1 = some e →
      (DNS01.run env pairs t0 cd).outcome = .error e) := by
  intro env pairs t0 cd
  rcases env with ⟨cre, del, res, bod⟩
  constructor
  · intro h
    rw [DNS01.run_created] at h
    rw [DNS01.run_outcome, DNS01.run_outcome]
    simp only at h ⊢
    rw [h, DNS01.unwind_none_of_ok _ (fun r => rfl)]
  · intro e h
    rw [DNS01.run_created] at h
    rw [DNS01.run_outcome]
    simp only at h ⊢
    rw [h]

/-- **C2 witness.** The amended statement applied to the concrete failing
environment: the deletion error `ResourceNotFoundError` left pending by the
unwinding is exactly what the run reports. -/
theorem cleanup_failure_replaces_primary_outcome_witness :
    (DNS01.run cEnvDeleteFails [("_acme-challenge.example.com", "tok")] 5
        none).outcome = .error .resourceNotFound :=
  (cleanup_failure_replaces_primary_outcome cEnvDeleteFails
      [("_acme-challenge.example.com", "tok")] 5 none).2
    .resourceNotFound (by decide)

/-- **C5 counterexample.** A run started at clock 1000 with the caller-supplied
deadline already long expired (deadline 0): the propagation wait still runs
its full fixed 120-second window (ending at clock 1120) instead of stopping
promptly, and the wait's behavior is bit-for-bit identical under a far-future
caller deadline — refuting the claim that the single caller-supplied deadline
governs the propagation-polling wait. -/
theorem caller_deadline_ignored_by_wait_counterexample :
    (DNS01.run cEnvNeverResolves [("_acme-challenge.example.com", "tok")] 1000
        (some 0)).waitEnd = 1120 ∧
    (DNS01.run cEnvNeverResolves [("_acme-challenge.example.com", "tok")] 1000
        (some 0)).outcome = .error .timeoutError ∧
    (DNS01.run cEnvNeverResolves [("_acme-challenge.example.com", "tok")] 1000
        (some 0)).waitEnd =
      (DNS01.run cEnvNeverResolves [("_acme-challenge.example.com", "tok")] 1000
        (some 100000)).waitEnd := by
  decide

/-- **C5 (amended).** The caller-supplied deadline is passed only to the final
ACME `poll_and_finalize` call (the body); the propagation wait is governed by
a separate fixed window `clock() + 120` computed by `temporary_txt_records`
from the injected clock, so the created records, the wait's end time and the
cleanup attempts are all independent of the caller deadline, and on a run
whose creation and propagation succeed with clean deletions the outcome is
exactly the body's result at that caller deadline. -/
theorem caller_deadline_only_governs_finalize :
    ∀ (env : DNS01.Env) (pairs : List (String × String)) (t0 : Nat)
      (d d' : Option Nat),
    ((DNS01.run env pairs t0 d).created = (DNS01.run env pairs t0 d').created ∧
     (DNS01.run env pairs t0 d).waitEnd = (DNS01.run env pairs t0 d').waitEnd ∧
     (DNS01.run env pairs t0 d).deleteAttempts =
       (DNS01.run env pairs t0 d').deleteAttempts) ∧
    ((DNS01.createAll env.create pairs []).1 = none →
     (DNS01.waitAll env.resolve ((DNS01.createAll env.create pairs []).2)
        (t0 + 120) t0).1 = true →
     (∀ r, env.delete r = .ok ()) →
     (DNS01.run env pairs t0 d).outcome = env.body d) := by
  intro env pairs t0 d d'
  refine ⟨⟨?_, ?_, ?_⟩, ?_⟩
  · rw [DNS01.run_created, DNS01.run_created]
  · rw [DNS01.run_waitEnd, DNS01.run_waitEnd]
  · rw [DNS01.run_deleteAttempts, DNS01.run_deleteAttempts]
  · intro hc hw hd
    rw [DNS01.run_outcome, DNS01.unwind_none_of_ok _ hd, hc, if_pos hw]

/-- **C5 witness.** The amended statement applied to a well-behaved concrete
environment: the run's outcome is the body's result at the supplied caller
deadline. -/
theorem caller_deadline_only_governs_finalize_witness :
    (DNS01.run cEnvHappy [("_acme-challenge.example.com", "tok")] 0
        (some 77)).outcome = cEnvHappy.body (some 77) :=
  (caller_deadline_only_governs_finalize cEnvHappy
      [("_acme-challenge.example.com", "tok")] 0 (some 77) none).2
    (by decide) (by decide) (fun r => rfl)

/-- **C6.** For every run whose creation loop succeeds on a non-empty record
set, whose resolver returns an empty sequence on every query throughout the
timeout window, and whose cleanup deletions succeed, the run fails with the
propagation-timeout error after waiting — as measured by the injected clock —
exactly 120 seconds, which is no less than the configured 120-second timeout
and no more than that timeout plus one 2-second poll interval. -/
theorem empty_resolver_times_out_within_bounds :
    ∀ (env : DNS01.Env) (pairs : List (String × String)) (t0 : Nat)
      (cd : Option Nat),
    (∀ t f ty, t < t0 + 120 → env.resolve t f ty = []) →
    (DNS01.createAll env.create pairs []).1 = none →
    pairs ≠ [] →
    (∀ r, env.delete r = .ok ()) →
    (DNS01.run env pairs t0 cd).outcome = .error .timeoutError ∧
    (DNS01.run env pairs t0 cd).waitEnd = t0 + 120 ∧
    120 ≤ (DNS01.run env pairs t0 cd).waitEnd - t0 ∧
    (DNS01.run env pairs t0 cd).waitEnd - t0 ≤ 120 + 2 := by
  intro env pairs t0 cd hres hc hpairs hdel
  have hlen : ((DNS01.createAll env.create pairs []).2).length = pairs.length := by
    have := DNS01.createAll_none_length env.create pairs [] hc
    simpa using this
  obtain ⟨r, rest, hcr⟩ :
      ∃ r rest, (DNS01.createAll env.create pairs []).2 = r :: rest := by
    rcases hl : (DNS01.createAll env.create pairs []).2 with _ | ⟨r, rest⟩
    · rw [hl] at hlen
      rcases pairs with _ | ⟨p, ps⟩
      · exact absurd rfl hpairs
      · simp at hlen
    · exact ⟨r, rest, rfl⟩
  have hwr : DNS01.waitRecord env.resolve r (t0 + 120) t0 = (false, t0 + 120) :=
    DNS01.waitRecord_window_empty env.resolve r 120 (t0 + 120) t0
      (fun t ht => hres t r.fqdn r.type ht) (by omega) (by omega) (by norm_num)
  have hwa : DNS01.waitAll env.resolve ((DNS01.createAll env.create pairs []).2)
      (t0 + 120) t0 = (false, t0 + 120) := by
    rw [hcr]
    unfold DNS01.waitAll
    rw [hwr]
  have hout : (DNS01.run env pairs t0 cd).outcome = .error .timeoutError := by
    rw [DNS01.run_outcome, DNS01.unwind_none_of_ok _ hdel, hc, hwa]
    rfl
  have hend : (DNS01.run env pairs t0 cd).waitEnd = t0 + 120 := by
    rw [DNS01.run_waitEnd, hc, hwa]
  exact ⟨hout, hend, by omega, by omega⟩

/-- **C6 witness.** A concrete run against an always-empty resolver: the
outcome is the propagation-timeout error and the wait, measured by the
injected clock from start 0, ends exactly at 120. -/
theorem empty_resolver_times_out_within_bounds_witness :
    (DNS01.run cEnvTimesOut [("_acme-challenge.example.com", "v")] 0
        none).outcome = .error .timeoutError ∧
    (DNS01.run cEnvTimesOut [("_acme-challenge.example.com", "v")] 0
        none).waitEnd = 0 + 120 ∧
    120 ≤ (DNS01.run cEnvTimesOut [("_acme-challenge.example.com", "v")] 0
        none).waitEnd - 0 ∧
    (DNS01.run cEnvTimesOut [("_acme-challenge.example.com", "v")] 0
        none).waitEnd - 0 ≤ 120 + 2 :=
  empty_resolver_times_out_within_bounds cEnvTimesOut
    [("_acme-challenge.example.com", "v")] 0 none
    (fun t f ty ht => rfl) (by decide) (by decide) (fun r => rfl)

/-- **C9.** Propagation polling declares a record propagated exactly on whole-
string membership of the record's `data` in the resolver's returned sequence:
a poll that contains the exact value while the deadline has not passed
terminates the wait immediately at that poll; a reported propagation implies
the resolver's answer at the reported instant contained the exact value; and
if no poll ever contains the exact value (for instance when every returned
value merely has the token as a prefix or substring), the wait never reports
propagation. -/
theorem propagation_requires_exact_membership :
    ∀ (resolve : Nat → String → RecordType → List String) (record : Record)
      (deadline now : Nat),
    (now < deadline →
      (resolve now record.fqdn record.type).contains record.data = true →
      DNS01.waitRecord resolve record deadline now = (true, now)) ∧
    ((DNS01.waitRecord resolve record deadline now).1 = true →
      (resolve ((DNS01.waitRecord resolve record deadline now).2) record.fqdn
        record.type).contains record.data = true) ∧
    ((∀ t, (resolve t record.fqdn record.type).contains record.data = false) →
      (DNS01.waitRecord resolve record deadline now).1 = false) := by
  intro resolve record deadline now
  exact ⟨fun hlt hmem =>
      DNS01.waitRecord_hit_now resolve record deadline now hlt hmem,
    fun htrue => DNS01.waitRecord_mem_of_true resolve record (deadline - now)
      deadline now rfl htrue,
    fun hnever => DNS01.waitRecord_false_of_never resolve record hnever
      (deadline - now) deadline now rfl⟩

/-- **C9 witness.** A resolver that answers `["tokXYZ"]` (the expected token
`tok` is a strict prefix) except at instant 4 where it answers `["tok"]`:
the wait entered at instant 4 terminates immediately with that poll; and
against a resolver that only ever answers the superstring `tokXYZ`, the wait
never reports propagation. -/
theorem propagation_requires_exact_membership_witness :
    DNS01.waitRecord (fun t _ _ => if t = 4 then ["tok"] else ["tokXYZ"])
      recTok 10 4 = (true, 4) ∧
    (DNS01.waitRecord (fun _ _ _ => ["tokXYZ"]) recTok 10 0).1 = false :=
  ⟨(propagation_requires_exact_membership
      (fun t _ _ => if t = 4 then ["tok"] else ["tokXYZ"]) recTok 10 4).1
      (by decide) (by decide),
   (propagation_requires_exact_membership
      (fun _ _ _ => ["tokXYZ"]) recTok 10 0).2.2 (fun t => by decide)⟩

/-- **C3 counterexample.** The zone lists two records for the queried
`(fqdn, TXT)`: `c3recOther` (a different value) first and `c3recMatch`
(matching `c3opts` exactly on `(fqdn, type, value, ttl)`) second.  The claim
demands the idempotent return of `c3recMatch` with no write regardless of its
position; the code instead raises `RecordAlreadyExistsError` (and with
`append=true` it issues a second write), because `_check_record` only ever
examines the first listed record. -/
theorem create_record_positional_counterexample :
    (DO.create_record [c3recOther, c3recMatch] c3opts "3001").1 =
      .error .recordAlreadyExists ∧
    (DO.create_record [c3recOther, c3recMatch] c3opts "3001").1 ≠
      .ok c3recMatch ∧
    (DO.create_record [c3recOther, c3recMatch]
        { c3opts with append := true } "3001").2 = true := by
  decide

/-- **C3 (amended).** `create_record` is idempotent only with respect to the
first record the provider lists for `(fqdn, record_type)`: when that first
listed record matches the options' `(value, ttl)` exactly, it is returned
and no create request is issued, whatever follows it in the listing.  (A
matching record sitting later in the listing does not produce the idempotent
return: the first, non-matching record triggers `RecordAlreadyExistsError`
— or, under `append=true`, a second write.) -/
theorem create_record_idempotent_on_first_listed_match :
    ∀ (r : DORecord) (rest : List DORecord) (options : RecordOptions)
      (newId : String),
    options.record_type ≠ RecordType.SOA →
    r.data = options.record_value →
    r.ttl = some options.record_ttl →
    DO.create_record (r :: rest) options newId = (.ok r, false) := by
  intro r rest options newId hty hdata httl
  simp [DO.create_record, DO._check_record, DO._check_record_type, hty, hdata,
    httl]

/-- **C3 witness.** With the exactly-matching record listed first, the
idempotent path returns it with no write. -/
theorem create_record_idempotent_on_first_listed_match_witness :
    DO.create_record [c3recMatch, c3recOther] c3opts "3002" =
      (.ok c3recMatch, false) :=
  create_record_idempotent_on_first_listed_match c3recMatch [c3recOther]
    c3opts "3002" (by decide) (by decide) (by decide)

/-- **C7 counterexample.** The zone lists the exactly-matching `c7recMatch`
first and the different-valued `c7recDiff` second; `c7opts` has
`append=false`.  A record with the same `(fqdn, type)` and a different value
exists, so the claim demands failure with `RecordAlreadyExistsError`; the
code instead returns the first record idempotently. -/
theorem create_record_conflict_counterexample :
    DO.create_record [c7recMatch, c7recDiff] c7opts "2003" =
      (.ok c7recMatch, false) ∧
    (DO.create_record [c7recMatch, c7recDiff] c7opts "2003").1 ≠
      .error .recordAlreadyExists := by
  decide

/-- **C7 (amended).** When the FIRST record the provider lists for
`(fqdn, record_type)` holds a different value or ttl than the options,
`create_record` with `append=false` fails with `RecordAlreadyExistsError` and
performs no write, and with `append=true` the mismatch is ignored and a write
is issued creating a new record (carrying the freshly assigned resource id
and the requested value and ttl) alongside the existing ones.  Only the first
listed record takes part in the comparison. -/
theorem create_record_first_mismatch_conflict_or_append :
    ∀ (r : DORecord) (rest : List DORecord) (options : RecordOptions)
      (newId dom : String),
    options.record_type ≠ RecordType.SOA →
    (r.data ≠ options.record_value ∨ r.ttl ≠ some options.record_ttl) →
    get_domain options.fqdn = .ok dom →
    (options.append = false →
      DO.create_record (r :: rest) options newId =
        (.error .recordAlreadyExists, false)) ∧
    (options.append = true →
      (DO.create_record (r :: rest) options newId).2 = true ∧
      ∃ rec : DORecord,
        (DO.create_record (r :: rest) options newId).1 = .ok rec ∧
        rec.resource_id = newId ∧ rec.data = options.record_value ∧
        rec.ttl = some options.record_ttl ∧ rec.fqdn = options.fqdn) := by
  intro r rest options newId dom hty hmis hdom
  have hnot : ¬(r.data = options.record_value ∧
      r.ttl = some options.record_ttl) := by tauto
  constructor
  · intro happ
    simp [DO.create_record, DO._check_record, DO._check_record_type, hty, hnot,
      happ]
  · intro happ
    simp [DO.create_record, DO._check_record, DO._check_record_type, hty, hnot,
      happ, hdom, DO.postedRecord]

/-- **C7 witness.** A single listed record with a different value and
`append=false`: creation fails with `RecordAlreadyExistsError` and no write
is performed. -/
theorem create_record_first_mismatch_conflict_or_append_witness :
    DO.create_record [c7recDiff] c7opts "2004" =
      (.error .recordAlreadyExists, false) :=
  (create_record_first_mismatch_conflict_or_append c7recDiff [] c7opts "2004"
      "example.com" (by decide) (Or.inl (by decide)) (by decide)).1 (by decide)

end AcmeTools
